import Mathlib

/-!
Shallow embedding of the tool-dispatch and conversation-orchestration layer
of the SynthesisTalk backend (backend/llm_client.py), together with theorems
settling the specified properties of that layer.

Conventions of the embedding:
- Python exceptions are modelled with Except String: Except.error e is a
  raised exception whose str() is e.
- The JSON-ish payloads that flow through tools are modelled by Value.
- datetime.now().isoformat() is an input: functions that read the clock
  take the current timestamp string as an explicit argument.
- The persisted notes file is modelled by its parse outcome, see NotesFile.
-/

namespace SynthesisTalk

/-- JSON-like values: the payloads passed to tools, stored in results and
metadata mappings. -/
inductive Value : Type where
  | null : Value
  | bool : Bool → Value
  | num : Int → Value
  | str : String → Value
  | arr : List Value → Value
  | obj : List (String × Value) → Value

/-- An argument mapping, as passed to a tool handler (a Python dict). -/
abbrev Args := List (String × Value)

/-- Message of the TypeError raised when the ToolResult dataclass is
instantiated without its required data field. -/
def toolResultMissingData : String :=
  "ToolResult.__init__() missing 1 required positional argument: \x27data\x27"

/-- The ToolResult dataclass of llm_client.py: success, data, error
(default None), metadata (default None). -/
structure ToolResult : Type where
  success : Bool
  data : Value
  error : Option String
  metadata : Option Args

/-- Model of the constructor the dataclass decorator generates for
ToolResult. The field data is annotated Any with no default value, so it is
a required argument: a call site that omits it (every error-path call in
llm_client.py does) raises a TypeError, modelled by Except.error. -/
def ToolResult.init (success : Bool) (data : Option Value) (error : Option String)
    (metadata : Option Args) : Except String ToolResult :=
  match data with
  | Option.some d => Except.ok (ToolResult.mk success d error metadata)
  | Option.none => Except.error toolResultMissingData

/-- A registered tool: handler, description and parameter schema, as stored
in the ToolManager.tools dict. The handler is a Python callable: it either
returns a ToolResult or raises (Except.error). -/
structure Tool : Type where
  function : Args → Except String ToolResult
  description : String
  parameters : Value

/-- ToolManager.tools: a dict from tool name to tool, kept in insertion
order as Python dicts are. -/
structure ToolManager : Type where
  tools : List (String × Tool)

/-- ToolManager.register_tool: dict assignment, which overwrites in place
when the name is present and appends otherwise. -/
def registerTool (tm : ToolManager) (name : String) (func : Args → Except String ToolResult)
    (description : String) (parameters : Value) : ToolManager :=
  if tm.tools.any (fun kv => kv.1 == name) then
    ToolManager.mk (tm.tools.map (fun kv =>
      if kv.1 == name then (name, Tool.mk func description parameters) else kv))
  else
    ToolManager.mk (tm.tools ++ [(name, Tool.mk func description parameters)])

/-- Dict lookup: name in self.tools / self.tools[name]. -/
def lookupTool (tm : ToolManager) (name : String) : Option Tool :=
  (tm.tools.find? (fun kv => kv.1 == name)).map Prod.snd

/-- One entry of the OpenAI function-calling schema list. -/
structure ToolDef : Type where
  type : String
  name : String
  description : String
  parameters : Value

/-- ToolManager.get_tool_definitions. -/
def getToolDefinitions (tm : ToolManager) : List ToolDef :=
  tm.tools.map (fun kv => ToolDef.mk "function" kv.1 kv.2.description kv.2.parameters)

/-- ToolManager.execute_tool. When the name is absent the source executes
return ToolResult(success=False, error=f"Tool not found") with the name
interpolated between apostrophes; that constructor call omits data and so
raises. When the handler raises, the except branch likewise builds a
ToolResult without data, and the resulting TypeError propagates. A handler
that returns normally has its result passed through unchanged. -/
def executeTool (tm : ToolManager) (name : String) (args : Args) : Except String ToolResult :=
  match lookupTool tm name with
  | Option.none =>
      ToolResult.init false Option.none (Option.some ("Tool \x27" ++ name ++ "\x27 not found"))
        Option.none
  | Option.some t =>
      match t.function args with
      | Except.ok r => Except.ok r
      | Except.error e => ToolResult.init false Option.none (Option.some e) Option.none

/-- A saved research note, as built by ToolManager._save_note. -/
structure Note : Type where
  id : String
  title : String
  content : String
  tags : List String
  created_at : String
deriving DecidableEq

/-- The note dict as a Value, for ToolResult.data. -/
def noteToValue (n : Note) : Value :=
  Value.obj [("id", Value.str n.id), ("title", Value.str n.title),
    ("content", Value.str n.content), ("tags", Value.arr (n.tags.map Value.str)),
    ("created_at", Value.str n.created_at)]

/-- The persisted research_notes.json file, modelled by its parse outcome:
none when the file does not exist; some (Except.error e) when it exists but
json.load raises e on its contents; some (Except.ok notes) when json.load
returns that list. json.dump of a list yields a file whose json.load
returns the same list. -/
abbrev NotesFile := Option (Except String (List Note))

/-- ToolManager._save_note, with the clock value now standing for
datetime.now().isoformat(). Reads the notes file, appends the new note and
rewrites the file. When json.load raises, the except branch builds
ToolResult(success=False, error=str(e)) without data, so the TypeError
propagates and the file is left unwritten. -/
def saveNote (now : String) (title : String) (content : String)
    (tags : Option (List String)) (file : NotesFile) :
    Except String ToolResult × NotesFile :=
  let note : Note := Note.mk now title content (tags.getD []) now
  match file with
  | Option.none =>
      (ToolResult.init true (Option.some (noteToValue note)) Option.none Option.none,
       Option.some (Except.ok [note]))
  | Option.some (Except.ok notes) =>
      (ToolResult.init true (Option.some (noteToValue note)) Option.none Option.none,
       Option.some (Except.ok (notes ++ [note])))
  | Option.some (Except.error e) =>
      (ToolResult.init false Option.none (Option.some e) Option.none, file)

/-- SynthesisTalkLLM.export_research_notes: returns the parsed list, or an
empty list when the file is absent or unreadable. -/
def exportResearchNotes (file : NotesFile) : List Note :=
  match file with
  | Option.none => []
  | Option.some (Except.error _) => []
  | Option.some (Except.ok notes) => notes

/-- A ToolResult keeps the failure invariant when a failing result always
carries a non-empty error string. -/
def ErrorsNonempty (r : ToolResult) : Prop :=
  r.success = false → ∃ s, r.error = Option.some s ∧ s ≠ ""

/-- Every handler registered in the manager only returns results keeping
the failure invariant. -/
def WellBehaved (tm : ToolManager) : Prop :=
  ∀ name t, (name, t) ∈ tm.tools → ∀ args r, t.function args = Except.ok r → ErrorsNonempty r

/-- Fixture: a registry whose single tool raises Exception("boom"). -/
def boomRegistry : ToolManager :=
  ToolManager.mk [("boom_tool", Tool.mk (fun _ => Except.error "boom") "always raises" Value.null)]

/-- Fixture: a registry whose single tool returns
ToolResult(False, None), a legal call that leaves error as None. -/
def badResultRegistry : ToolManager :=
  ToolManager.mk [("bad_tool",
    Tool.mk (fun _ => Except.ok (ToolResult.mk false Value.null Option.none Option.none))
      "returns a failure with no error message" Value.null)]

/-- Fixture: a registry whose single tool fails with a non-empty message. -/
def politeRegistry : ToolManager :=
  ToolManager.mk [("polite_tool",
    Tool.mk (fun _ => Except.ok (ToolResult.mk false Value.null (Option.some "handler failed") Option.none))
      "fails politely" Value.null)]

/-- Fixture: a note already stored under the timestamp id used below. -/
def oldNote : Note := Note.mk "2024-01-01T00:00:00" "old" "old content" [] "2024-01-01T00:00:00"

/-- Fixture: a notes file holding oldNote. -/
def collidingFile : NotesFile := Option.some (Except.ok [oldNote])

/-- Fixture: the note a save at the same clock reading produces. -/
def collidingNote : Note :=
  Note.mk "2024-01-01T00:00:00" "new" "new content" ["tag"] "2024-01-01T00:00:00"

/-- Fixture: a notes file whose contents fail to parse as JSON. -/
def garbageFile : NotesFile :=
  Option.some (Except.error "Expecting value: line 1 column 1 (char 0)")

/-- A conversation message, as built by ConversationManager.add_message:
role, content, timestamp (datetime.now().isoformat()) and metadata. -/
structure Message : Type where
  role : String
  content : String
  timestamp : String
  metadata : Args

/-- ConversationManager: ordered message history, retention bound
max_history (default 20 at every construction site) and the context dict. -/
structure ConversationManager : Type where
  messages : List Message
  maxHistory : Nat
  context : List (String × String)

/-- ConversationManager.__init__. -/
def newConversationManager (maxHistory : Nat) : ConversationManager :=
  ConversationManager.mk [] maxHistory []

/-- The Python slice l[-n:] for a natural n: for n = 0 it is l[0:], the
whole list; otherwise the last n elements (all of l when n exceeds its
length). -/
def pySliceLast (n : Nat) (l : List α) : List α :=
  if n = 0 then l else l.drop (l.length - n)

/-- ConversationManager._trim_history. -/
def trimHistory (cm : ConversationManager) : ConversationManager :=
  if cm.maxHistory < cm.messages.length then
    ConversationManager.mk (pySliceLast cm.maxHistory cm.messages) cm.maxHistory cm.context
  else cm

/-- ConversationManager.add_message: build the message dict, append it,
then trim. The timestamp argument stands for datetime.now().isoformat();
metadata none stands for the Python default, stored as an empty dict. -/
def addMessage (cm : ConversationManager) (role : String) (content : String)
    (timestamp : String) (metadata : Option Args) : ConversationManager :=
  trimHistory (ConversationManager.mk
    (cm.messages ++ [Message.mk role content timestamp (metadata.getD [])])
    cm.maxHistory cm.context)

/-- The arguments of one add_message call, for stating properties of call
sequences. -/
structure AppendCall : Type where
  role : String
  content : String
  timestamp : String
  metadata : Option Args

/-- The message an add_message call appends before trimming. -/
def mkMessage (x : AppendCall) : Message :=
  Message.mk x.role x.content x.timestamp (x.metadata.getD [])

/-- A sequence of add_message calls, applied in order. -/
def addMessages (cm : ConversationManager) (xs : List AppendCall) : ConversationManager :=
  xs.foldl (fun c x => addMessage c x.role x.content x.timestamp x.metadata) cm

/-- ConversationManager.get_messages_for_api: role and content only. -/
structure APIMessage : Type where
  role : String
  content : String
  tool_call_id : Option String

def getMessagesForApi (cm : ConversationManager) : List APIMessage :=
  cm.messages.map (fun m => APIMessage.mk m.role m.content Option.none)

/-- The sentinel ConversationManager.get_context_summary returns on an
empty context. -/
def noContextSentinel : String := "No specific context established."

/-- ConversationManager.get_context_summary. -/
def getContextSummary (cm : ConversationManager) : String :=
  if cm.context.isEmpty then noContextSentinel
  else "Current context: " ++
    String.intercalate "; " (cm.context.map (fun kv => kv.1 ++ ": " ++ kv.2))

/-- Leading literal of ReasoningEngine.chain_of_thought_prompt, up to the
interpolated question. -/
def chainOfThoughtHead : String :=
  "\n        Let\x27s approach this step by step.\n\n        Question: "

/-- Remainder of the chain-of-thought template after the question. -/
def chainOfThoughtTail (context : String) : String :=
  "\n        \n        " ++
  (if context ≠ "" then "Context: " ++ context else "") ++
  "\n        \n        Please think through this systematically:\n        1. First, let me understand what is being asked\n        2. What information do I need to answer this question?\n        3. What steps should I follow to reach a conclusion?\n        4. Let me work through each step carefully\n        5. Finally, what is my conclusion?\n\n        Think step by step:\n        "

/-- ReasoningEngine.chain_of_thought_prompt. -/
def chainOfThoughtPrompt (question : String) (context : String) : String :=
  chainOfThoughtHead ++ question ++ chainOfThoughtTail context

/-- Leading literal of ReasoningEngine.react_prompt, up to the question. -/
def reactHead : String := "\n        I need to answer this question: "

/-- Remainder of the ReAct template after the question. -/
def reactTail (availableTools : List String) : String :=
  "\n\n        I have access to these tools: " ++ String.intercalate ", " availableTools ++
  "\n\n        I will use the ReAct approach - Reasoning and Acting in turns:\n\n        Thought: Let me think about what I need to do to answer this question.\n        Action: [I\x27ll choose an appropriate tool if needed]\n        Observation: [I\x27ll analyze the results]\n        Thought: [I\x27ll reason about what I learned]\n        ... (continue as needed)\n        Final Answer: [My conclusion based on reasoning and actions]\n\n        Let me start:\n        "

/-- ReasoningEngine.react_prompt. -/
def reactPrompt (question : String) (availableTools : List String) : String :=
  reactHead ++ question ++ reactTail availableTools

/-- The fixed system prompt of SynthesisTalkLLM. -/
def systemPrompt : String :=
  "\n        You are SynthesisTalk, an intelligent research assistant that helps users explore complex topics through interactive conversation.\n\n        Your capabilities include:\n        - Analyzing documents and extracting key information\n        - Searching for additional information on the web\n        - Connecting related concepts across different sources\n        - Generating insights based on patterns in information\n        - Taking and organizing notes\n        - Explaining complex concepts clearly\n\n        When users ask questions:\n        1. Consider what tools might be helpful\n        2. Use reasoning techniques to approach complex problems\n        3. Provide clear, well-structured responses\n        4. Maintain conversation context across multiple turns\n        5. Suggest follow-up questions or areas for deeper exploration\n\n        Always be helpful, accurate, and focus on facilitating deep research and understanding.\n        "

/-- One tool call in a model response: correlation id, function name and
the outcome json.loads produces on the serialized arguments string. -/
structure ToolCall : Type where
  id : String
  name : String
  arguments : Except String Args

/-- The message object of a model response choice: content and tool calls
(an absent tool_calls attribute is the empty list; Python tests it for
truthiness, so None and an empty list behave alike). -/
structure ModelMessage : Type where
  content : String
  tool_calls : List ToolCall

/-- One outbound chat.completions.create request. -/
structure Request : Type where
  model : String
  messages : List APIMessage
  tools : Option (List ToolDef)
  tool_choice : Option String

/-- One entry of the tool_results list SynthesisTalkLLM.chat accumulates. -/
structure ToolRecord : Type where
  tool : String
  args : Args
  result : ToolResult

/-- The dict SynthesisTalkLLM.chat returns. The success dict carries
response, tool_results, reasoning_type and context; the failure dict
carries response, tool_results and error. An absent key is none. -/
structure ChatOutcome : Type where
  response : String
  tool_results : List ToolRecord
  reasoning_type : Option String
  context : Option (List (String × String))
  error : Option String

/-- The failure dict built by the top-level except branch of chat. -/
def errorOutcome (e : String) : ChatOutcome :=
  ChatOutcome.mk ("I encountered an error: " ++ e) [] Option.none Option.none (Option.some e)

/-- The remote model client, modelled as the scripted list of outcomes of
successive chat.completions.create calls: element n answers call n, a
missing element is a transport failure. -/
def callModel (script : List (Except String ModelMessage)) (n : Nat) :
    Except String ModelMessage :=
  match script.get? n with
  | Option.some r => r
  | Option.none => Except.error "connection error"

mutual

/-- Rough model of the Python str() rendering applied to a tool result
before it is appended as a tool message. No theorem depends on its exact
output, only on it being a deterministic function of the value. -/
def valueStr : Value → String
  | Value.null => "None"
  | Value.bool b => cond b "True" "False"
  | Value.num n => toString n
  | Value.str s => s
  | Value.arr xs => "[" ++ valueStrList xs ++ "]"
  | Value.obj kvs => "\x7b" ++ valueStrFields kvs ++ "\x7d"

def valueStrList : List Value → String
  | [] => ""
  | [v] => valueStr v
  | v :: vs => valueStr v ++ ", " ++ valueStrList vs

def valueStrFields : List (String × Value) → String
  | [] => ""
  | [(k, v)] => "\x27" ++ k ++ "\x27: " ++ valueStr v
  | (k, v) :: kvs => "\x27" ++ k ++ "\x27: " ++ valueStr v ++ ", " ++ valueStrFields kvs

end

/-- The for-loop over tool_calls in SynthesisTalkLLM.chat: parse the
arguments (json.loads may raise), dispatch via execute_tool (which may
raise, see executeTool), record the call regardless, and append a
tool-role message if and only if the result succeeded. A raised exception
aborts the loop and discards the records accumulated so far, exactly as an
exception unwinding out of the Python for-loop does. -/
def processToolCalls (tm : ToolManager) (calls : List ToolCall)
    (messages : List APIMessage) : Except String (List ToolRecord × List APIMessage) :=
  match calls with
  | [] => Except.ok ([], messages)
  | c :: rest =>
    match c.arguments with
    | Except.error e => Except.error e
    | Except.ok args =>
      match executeTool tm c.name args with
      | Except.error e => Except.error e
      | Except.ok r =>
        let messages1 :=
          if r.success then
            messages ++ [APIMessage.mk "tool" (valueStr r.data) (Option.some c.id)]
          else messages
        match processToolCalls tm rest messages1 with
        | Except.error e => Except.error e
        | Except.ok (recs, messages2) =>
            Except.ok (ToolRecord.mk c.name args r :: recs, messages2)

/-- The request prefix chat always builds: the fixed system prompt,
followed by the context summary as a second system message when the
summary is not the empty-context sentinel. -/
def baseRequestMessages (cm1 : ConversationManager) : List APIMessage :=
  if getContextSummary cm1 ≠ noContextSentinel then
    [APIMessage.mk "system" systemPrompt Option.none,
     APIMessage.mk "system" (getContextSummary cm1) Option.none]
  else [APIMessage.mk "system" systemPrompt Option.none]

/-- The message list of the first request, per reasoning mode: the
chain-of-thought or ReAct prompt replaces the stored history when the
corresponding mode is selected, any other value (including none) appends
the full stored history via get_messages_for_api. -/
def buildMessages (tm : ToolManager) (cm1 : ConversationManager) (userMessage : String)
    (reasoningType : Option String) : List APIMessage :=
  if reasoningType = Option.some "chain_of_thought" then
    baseRequestMessages cm1 ++
      [APIMessage.mk "user" (chainOfThoughtPrompt userMessage (getContextSummary cm1)) Option.none]
  else if reasoningType = Option.some "react" then
    baseRequestMessages cm1 ++
      [APIMessage.mk "user" (reactPrompt userMessage (tm.tools.map Prod.fst)) Option.none]
  else
    baseRequestMessages cm1 ++ getMessagesForApi cm1

/-- The tail of chat shared by every non-raising path: append the final
assistant message (metadata records the tool-call count) and build the
success dict. -/
def chatFinish (cm1 : ConversationManager) (reasoningType : Option String)
    (toolResults : List ToolRecord) (nToolCalls : Nat) (finalContent : String)
    (ts2 : String) : ChatOutcome × ConversationManager :=
  let cm2 := addMessage cm1 "assistant" finalContent ts2
    (Option.some [("tool_calls", Value.num (Int.ofNat nToolCalls))])
  (ChatOutcome.mk finalContent toolResults reasoningType (Option.some cm2.context)
    Option.none, cm2)

/-- The body of chat after the first request has been built: make the
first model call, run the tool loop when the response carries tool calls,
make the second model call when any tool result was recorded, and finish.
Any raised exception lands in the top-level except branch, which returns
the failure dict and leaves the conversation as it was after the user
append. The third component lists the requests issued after the first. -/
def chatAfter (model : String) (tm : ToolManager) (cm1 : ConversationManager)
    (reasoningType : Option String) (script : List (Except String ModelMessage))
    (messages2 : List APIMessage) (ts2 : String) :
    ChatOutcome × ConversationManager × List Request :=
  match callModel script 0 with
  | Except.error e => (errorOutcome e, cm1, [])
  | Except.ok am =>
    if am.tool_calls.isEmpty then
      let fin := chatFinish cm1 reasoningType [] am.tool_calls.length am.content ts2
      (fin.1, fin.2, [])
    else
      match processToolCalls tm am.tool_calls messages2 with
      | Except.error e => (errorOutcome e, cm1, [])
      | Except.ok (toolResults, messages3) =>
        if toolResults.isEmpty then
          let fin := chatFinish cm1 reasoningType toolResults am.tool_calls.length am.content ts2
          (fin.1, fin.2, [])
        else
          let req2 : Request := Request.mk model messages3 Option.none Option.none
          match callModel script 1 with
          | Except.error e => (errorOutcome e, cm1, [req2])
          | Except.ok am2 =>
            let fin := chatFinish cm1 reasoningType toolResults am.tool_calls.length am2.content ts2
            (fin.1, fin.2, [req2])

/-- SynthesisTalkLLM.chat. Arguments beyond the Python signature carry the
ambient state the method reads: the configured model name, the tool
manager, the conversation manager, the scripted client and the two clock
readings of the user and assistant appends. Returns the result dict, the
conversation manager afterwards, and the requests issued in order. -/
def chat (model : String) (tm : ToolManager) (cm : ConversationManager)
    (script : List (Except String ModelMessage)) (ts1 : String) (ts2 : String)
    (userMessage : String) (useTools : Bool) (reasoningType : Option String) :
    ChatOutcome × ConversationManager × List Request :=
  let cm1 := addMessage cm "user" userMessage ts1 Option.none
  let messages2 := buildMessages tm cm1 userMessage reasoningType
  let req1 : Request := Request.mk model messages2
    (if useTools then Option.some (getToolDefinitions tm) else Option.none)
    (if useTools then Option.some "auto" else Option.none)
  let r := chatAfter model tm cm1 reasoningType script messages2 ts2
  (r.1, r.2.1, req1 :: r.2.2)

/-- Fixture: a client script whose first call raises. -/
def errScript : List (Except String ModelMessage) := [Except.error "boom"]

/-- Fixture: a client script whose first response requests a tool that is
not registered, and whose second call would answer "done". -/
def toolFailScript : List (Except String ModelMessage) :=
  [Except.ok (ModelMessage.mk "" [ToolCall.mk "call_1" "missing_tool" (Except.ok [])]),
   Except.ok (ModelMessage.mk "done" [])]

/-- Fixture: a client script with a single plain response. -/
def plainScript : List (Except String ModelMessage) :=
  [Except.ok (ModelMessage.mk "hi" [])]

/-- Fixture: a registry whose single tool returns a successful result. -/
def okToolRegistry : ToolManager :=
  ToolManager.mk [("echo_tool",
    Tool.mk (fun _ => Except.ok (ToolResult.mk true (Value.str "ok") Option.none Option.none))
      "succeeds" Value.null)]

/-- Fixture: a client script whose first response calls echo_tool and
whose second response answers "done". -/
def toolOkScript : List (Except String ModelMessage) :=
  [Except.ok (ModelMessage.mk "" [ToolCall.mk "call_1" "echo_tool" (Except.ok [])]),
   Except.ok (ModelMessage.mk "done" [])]

/-- Fixture: a sequence of three add_message calls, for the retention
witness. -/
def retentionCalls : List AppendCall :=
  [AppendCall.mk "user" "a" "t1" Option.none,
   AppendCall.mk "assistant" "b" "t2" Option.none,
   AppendCall.mk "user" "c" "t3" Option.none]

/-- Fixture: a single add_message call, for the retention counterexample. -/
def oneCall : List AppendCall := [AppendCall.mk "user" "hi" "t1" Option.none]

lemma addMessage_maxHistory (cm : ConversationManager) (role content ts : String)
    (md : Option Args) : (addMessage cm role content ts md).maxHistory = cm.maxHistory := by
  unfold addMessage trimHistory
  split <;> rfl

lemma addMessages_snoc (cm : ConversationManager) (xs : List AppendCall) (x : AppendCall) :
    addMessages cm (xs ++ [x]) =
      addMessage (addMessages cm xs) x.role x.content x.timestamp x.metadata := by
  simp [addMessages, List.foldl_append]

lemma addMessages_maxHistory (cm : ConversationManager) (xs : List AppendCall) :
    (addMessages cm xs).maxHistory = cm.maxHistory := by
  induction xs using List.reverseRecOn with
  | nil => rfl
  | append_singleton xs x ih => rw [addMessages_snoc, addMessage_maxHistory]; exact ih

lemma addMessage_messages_eq (S : ConversationManager) (role content ts : String)
    (md : Option Args) :
    (addMessage S role content ts md).messages =
      if S.maxHistory < S.messages.length + 1 then
        pySliceLast S.maxHistory (S.messages ++ [Message.mk role content ts (md.getD [])])
      else S.messages ++ [Message.mk role content ts (md.getD [])] := by
  unfold addMessage trimHistory
  rw [apply_ite ConversationManager.messages]
  simp only [List.length_append, List.length_singleton]

lemma addMessages_messages (N : Nat) (hN : 1 ≤ N) (xs : List AppendCall) :
    (addMessages (newConversationManager N) xs).messages =
      (xs.map mkMessage).drop (xs.length - N) := by
  induction xs using List.reverseRecOn with
  | nil => simp [addMessages, newConversationManager]
  | append_singleton xs x ih =>
    rw [addMessages_snoc, addMessage_messages_eq]
    have hmax : (addMessages (newConversationManager N) xs).maxHistory = N :=
      addMessages_maxHistory _ _
    have hmk : Message.mk x.role x.content x.timestamp (x.metadata.getD []) =
        mkMessage x := rfl
    rw [hmk, hmax, ih]
    have hrhs : ((xs ++ [x]).map mkMessage) = xs.map mkMessage ++ [mkMessage x] := by
      simp
    rw [hrhs]
    rcases Nat.lt_or_ge xs.length N with hFN | hFN
    · have hd : xs.length - N = 0 := by omega
      rw [hd, List.drop_zero]
      rw [if_neg (by rw [List.length_map]; omega)]
      have hd2 : (xs ++ [x]).length - N = 0 := by
        rw [List.length_append, List.length_singleton]; omega
      rw [hd2, List.drop_zero]
    · have hdlen : ((xs.map mkMessage).drop (xs.length - N)).length = N := by
        rw [List.length_drop, List.length_map]; omega
      rw [if_pos (by rw [hdlen]; omega)]
      unfold pySliceLast
      rw [if_neg (by omega)]
      have h1 : ((xs.map mkMessage).drop (xs.length - N) ++ [mkMessage x]).length - N = 1 := by
        rw [List.length_append, List.length_singleton, hdlen]; omega
      rw [h1]
      have h2 : ((xs.map mkMessage).drop (xs.length - N) ++ [mkMessage x]).drop 1 =
          ((xs.map mkMessage).drop (xs.length - N)).drop 1 ++ [mkMessage x] := by
        rw [List.drop_append_of_le_length (by rw [hdlen]; omega)]
      rw [h2, List.drop_drop]
      have h3 : (xs ++ [x]).length - N = (xs.length - N) + 1 := by
        rw [List.length_append, List.length_singleton]; omega
      rw [h3]
      rw [List.drop_append_of_le_length (by rw [List.length_map]; omega)]

/-- Claim C1 (amended: the retention bound is at least 1; every
construction site in the source uses the default 20): after any sequence
of add_message calls starting from a fresh ConversationManager with
retention bound N, the stored messages are exactly the most recently
appended ones in their original append order, and the stored count is
min(totalAppended, N). -/
theorem conversation_retention_amended (N : Nat) (hN : 1 ≤ N) (xs : List AppendCall) :
    (addMessages (newConversationManager N) xs).messages =
      (xs.map mkMessage).drop (xs.length - N) ∧
    (addMessages (newConversationManager N) xs).messages.length = min xs.length N := by
  have h := addMessages_messages N hN xs
  refine ⟨h, ?_⟩
  rw [h, List.length_drop, List.length_map]
  omega

/-- Claim C1, counterexample to the unrestricted statement: with retention
bound 0 the trim slice messages[-0:] is messages[0:], the whole list, so
after one append the stored count is 1, not min(1, 0) = 0. -/
theorem conversation_retention_cex :
    (addMessages (newConversationManager 0) oneCall).messages.length ≠
      min oneCall.length 0 := by decide

/-- Claim C1, witness: the amended theorem applied at bound 2 and three
appends. -/
theorem conversation_retention_witness :
    1 ≤ 2 ∧
    ((addMessages (newConversationManager 2) retentionCalls).messages =
        (retentionCalls.map mkMessage).drop (retentionCalls.length - 2) ∧
      (addMessages (newConversationManager 2) retentionCalls).messages.length =
        min retentionCalls.length 2) :=
  ⟨by decide, conversation_retention_amended 2 (by decide) retentionCalls⟩

/-- Claim C2 (code evaluated at the failing input): dispatching a
registered tool whose handler raises Exception("boom") does not return a
failure ToolResult; the except branch of execute_tool itself raises a
TypeError, because ToolResult(success=False, error=str(e)) omits the
required data argument, and that exception propagates to the caller. -/
theorem execute_tool_handler_exception_raises :
    executeTool boomRegistry "boom_tool" [] = Except.error toolResultMissingData := rfl

/-- Claim C7 (code evaluated at the failing input): invoking an
unregistered name does not return the not-found ToolResult; the
construction ToolResult(success=False, error=...) raises a TypeError which
propagates, since the not-found branch sits outside the try block. -/
theorem execute_tool_not_found_raises :
    executeTool (ToolManager.mk []) "web_lookup" [] = Except.error toolResultMissingData := rfl

/-- Claim C8, counterexample: a handler may legally return
ToolResult(False, None), passing data positionally and leaving error at
its None default; execute_tool passes that result through unchanged, so a
produced ToolResult can have success false with no error string at all. -/
theorem invoke_error_nonempty_cex :
    executeTool badResultRegistry "bad_tool" [] =
      Except.ok (ToolResult.mk false Value.null Option.none Option.none) ∧
    (ToolResult.mk false Value.null Option.none Option.none).success = false ∧
    (ToolResult.mk false Value.null Option.none Option.none).error = Option.none :=
  ⟨rfl, rfl, rfl⟩

lemma lookupTool_mem (tm : ToolManager) (name : String) (t : Tool)
    (h : lookupTool tm name = Option.some t) : ∃ n, (n, t) ∈ tm.tools := by
  cases hf : tm.tools.find? (fun kv => kv.1 == name) with
  | none => simp [lookupTool, hf] at h
  | some kv =>
    obtain ⟨a, b⟩ := kv
    simp [lookupTool, hf] at h
    exact ⟨a, h ▸ List.mem_of_find?_eq_some hf⟩

/-- Claim C8 (amended: restricted to managers whose registered handlers
only return failure results carrying a non-empty error; execute_tool
passes handler results through unchanged, and its own failure paths never
produce a ToolResult at all, they raise): every ToolResult execute_tool
returns then satisfies success = false implies a non-empty error. -/
theorem invoke_error_nonempty_amended (tm : ToolManager) (h : WellBehaved tm)
    (name : String) (args : Args) (r : ToolResult)
    (hr : executeTool tm name args = Except.ok r) : ErrorsNonempty r := by
  unfold executeTool at hr
  split at hr
  · simp [ToolResult.init] at hr
  · rename_i t hl
    split at hr
    · rename_i r2 hf
      injection hr with h2
      subst h2
      obtain ⟨n, hmem⟩ := lookupTool_mem tm name t hl
      exact h n t hmem args r2 hf
    · simp [ToolResult.init] at hr

/-- Claim C8, witness: the amended theorem applied to a registry with one
well-behaved handler that fails with the message "handler failed". -/
theorem invoke_error_nonempty_witness :
    ErrorsNonempty (ToolResult.mk false Value.null (Option.some "handler failed") Option.none) :=
  invoke_error_nonempty_amended politeRegistry
    (by
      intro name t hmem args r hr
      simp only [politeRegistry, List.mem_singleton, Prod.mk.injEq] at hmem
      obtain ⟨h1, h2⟩ := hmem
      subst h2
      simp only [] at hr
      injection hr with h3
      subst h3
      intro _
      exact ⟨"handler failed", rfl, by decide⟩)
    "polite_tool" [] _ rfl

/-- Claim C9, counterexample: the note id is datetime.now().isoformat()
with no uniqueness enforcement, so a save whose clock reading equals the
id of an already stored note succeeds and yields a new entry whose id
coincides with a prior id. -/
theorem save_note_id_unique_cex :
    (saveNote "2024-01-01T00:00:00" "new" "new content" (Option.some ["tag"])
        collidingFile).1 =
      Except.ok (ToolResult.mk true (noteToValue collidingNote) Option.none Option.none) ∧
    exportResearchNotes (saveNote "2024-01-01T00:00:00" "new" "new content"
        (Option.some ["tag"]) collidingFile).2 = [oldNote, collidingNote] ∧
    collidingNote.id = oldNote.id :=
  ⟨rfl, rfl, rfl⟩

/-- Claim C9 (amended: the id-uniqueness part holds provided the clock
reading of the save differs from the id of every previously stored note;
ids are bare timestamps and the code never checks them): a successful
save_note followed by export_research_notes unconditionally yields exactly
one more entry whose title, content and tags equal the inputs, and, under
that proviso, the new id differs from every prior id. -/
theorem save_note_roundtrip_amended (now title content : String) (tags : List String)
    (file : NotesFile) (r : ToolResult) (file2 : NotesFile)
    (hs : saveNote now title content (Option.some tags) file = (Except.ok r, file2)) :
    r.success = true ∧
    exportResearchNotes file2 =
      exportResearchNotes file ++ [Note.mk now title content tags now] ∧
    (exportResearchNotes file2).length = (exportResearchNotes file).length + 1 ∧
    (now ∉ (exportResearchNotes file).map Note.id →
      ∀ o ∈ exportResearchNotes file,
        o.id ≠ (Note.mk now title content tags now).id) := by
  match file with
  | Option.none =>
    simp only [saveNote, ToolResult.init, Option.getD, Prod.mk.injEq] at hs
    obtain ⟨hr, hf⟩ := hs
    injection hr with hr
    subst hr
    subst hf
    refine ⟨rfl, by simp [exportResearchNotes], by simp [exportResearchNotes], ?_⟩
    intro _ o ho
    simp [exportResearchNotes] at ho
  | Option.some (Except.ok notes) =>
    simp only [saveNote, ToolResult.init, Option.getD, Prod.mk.injEq] at hs
    obtain ⟨hr, hf⟩ := hs
    injection hr with hr
    subst hr
    subst hf
    refine ⟨rfl, by simp [exportResearchNotes], by simp [exportResearchNotes], ?_⟩
    intro hfresh o ho hc
    simp only [exportResearchNotes] at ho hfresh
    have hc2 : o.id = now := hc
    exact hfresh (hc2 ▸ List.mem_map_of_mem Note.id ho)
  | Option.some (Except.error e) =>
    simp [saveNote, ToolResult.init, Prod.mk.injEq] at hs

/-- Claim C9, witness: the amended theorem applied to a save into a notes
file that already holds a note (with a different id). -/
theorem save_note_roundtrip_witness :
    (ToolResult.mk true
        (noteToValue (Note.mk "2024-06-01T09:00:00" "a" "b" ["x"] "2024-06-01T09:00:00"))
        Option.none Option.none).success = true ∧
    exportResearchNotes (Option.some (Except.ok
        [oldNote, Note.mk "2024-06-01T09:00:00" "a" "b" ["x"] "2024-06-01T09:00:00"])) =
      exportResearchNotes collidingFile ++
        [Note.mk "2024-06-01T09:00:00" "a" "b" ["x"] "2024-06-01T09:00:00"] ∧
    (exportResearchNotes (Option.some (Except.ok
        [oldNote, Note.mk "2024-06-01T09:00:00" "a" "b" ["x"] "2024-06-01T09:00:00"]))).length =
      (exportResearchNotes collidingFile).length + 1 ∧
    ("2024-06-01T09:00:00" ∉ (exportResearchNotes collidingFile).map Note.id →
      ∀ o ∈ exportResearchNotes collidingFile,
        o.id ≠ (Note.mk "2024-06-01T09:00:00" "a" "b" ["x"] "2024-06-01T09:00:00").id) :=
  save_note_roundtrip_amended "2024-06-01T09:00:00" "a" "b" ["x"] collidingFile _ _ rfl

/-- Claim C10 (code evaluated at the failing input): when the notes file
exists but fails to parse, _save_note performs no write, so the file is
left unchanged; but instead of returning a failure ToolResult, the except
branch raises a TypeError (ToolResult built without its required data
argument), which propagates. -/
theorem save_note_parse_failure_behavior :
    saveNote "2024-06-01T12:00:00" "title" "content" Option.none garbageFile =
      (Except.error toolResultMissingData, garbageFile) := rfl

lemma addMessage_appends (cm : ConversationManager) (role content ts : String)
    (md : Option Args) :
    ∃ pre, (addMessage cm role content ts md).messages =
      pre ++ [Message.mk role content ts (md.getD [])] := by
  rw [addMessage_messages_eq]
  split
  · unfold pySliceLast
    split
    · exact ⟨cm.messages, rfl⟩
    · next hz =>
      refine ⟨cm.messages.drop ((cm.messages ++
        [Message.mk role content ts (md.getD [])]).length - cm.maxHistory), ?_⟩
      rw [List.drop_append_of_le_length
        (by rw [List.length_append, List.length_singleton]; omega)]
  · exact ⟨cm.messages, rfl⟩

lemma chatAfter_error (model : String) (tm : ToolManager) (cm1 : ConversationManager)
    (rt : Option String) (script : List (Except String ModelMessage))
    (messages2 : List APIMessage) (ts2 : String) (e : String)
    (h : (chatAfter model tm cm1 rt script messages2 ts2).1.error = Option.some e) :
    (chatAfter model tm cm1 rt script messages2 ts2).1 = errorOutcome e ∧
    (chatAfter model tm cm1 rt script messages2 ts2).2.1 = cm1 := by
  rcases h0 : callModel script 0 with e0 | am
  · simp only [chatAfter, h0] at h ⊢
    have h3 : Option.some e0 = Option.some e := h
    injection h3 with h3
    subst h3
    exact ⟨rfl, trivial⟩
  · rcases hb : am.tool_calls.isEmpty with _ | _
    · rcases h1 : processToolCalls tm am.tool_calls messages2 with e1 | pair
      · simp only [chatAfter, h0, hb, h1, Bool.false_eq_true, if_false] at h ⊢
        have h3 : Option.some e1 = Option.some e := h
        injection h3 with h3
        subst h3
        exact ⟨rfl, trivial⟩
      · obtain ⟨trs, m3⟩ := pair
        rcases ht : trs.isEmpty with _ | _
        · rcases h3 : callModel script 1 with e3 | am2
          · simp only [chatAfter, h0, hb, h1, ht, Bool.false_eq_true, if_false, h3] at h ⊢
            have h4 : Option.some e3 = Option.some e := h
            injection h4 with h4
            subst h4
            exact ⟨rfl, trivial⟩
          · simp only [chatAfter, h0, hb, h1, ht, Bool.false_eq_true, if_false, h3] at h
            have h4 : Option.none = Option.some e := h
            exact Option.noConfusion h4
        · simp only [chatAfter, h0, hb, h1, ht, Bool.false_eq_true, if_false, if_true] at h
          have h4 : Option.none = Option.some e := h
          exact Option.noConfusion h4
    · simp only [chatAfter, h0, hb, if_true] at h
      have h4 : Option.none = Option.some e := h
      exact Option.noConfusion h4

/-- Claim C3: whatever exception arises inside chat after the user append
(first model call, argument parsing, tool dispatch, second model call),
the call does not raise: it returns the failure dict carrying the error
string and an empty tool_results list, and the conversation keeps the user
message appended in step 1 as its most recent entry, with no rollback. -/
theorem chat_error_boundary (model : String) (tm : ToolManager) (cm : ConversationManager)
    (script : List (Except String ModelMessage)) (ts1 ts2 u : String) (useTools : Bool)
    (rt : Option String) (e : String)
    (h : (chat model tm cm script ts1 ts2 u useTools rt).1.error = Option.some e) :
    (chat model tm cm script ts1 ts2 u useTools rt).1.response =
      "I encountered an error: " ++ e ∧
    (chat model tm cm script ts1 ts2 u useTools rt).1.tool_results = [] ∧
    (chat model tm cm script ts1 ts2 u useTools rt).2.1 =
      addMessage cm "user" u ts1 Option.none ∧
    ∃ pre, (chat model tm cm script ts1 ts2 u useTools rt).2.1.messages =
      pre ++ [Message.mk "user" u ts1 []] := by
  have hc1 : (chat model tm cm script ts1 ts2 u useTools rt).1 =
      (chatAfter model tm (addMessage cm "user" u ts1 Option.none) rt script
        (buildMessages tm (addMessage cm "user" u ts1 Option.none) u rt) ts2).1 := rfl
  have hc2 : (chat model tm cm script ts1 ts2 u useTools rt).2.1 =
      (chatAfter model tm (addMessage cm "user" u ts1 Option.none) rt script
        (buildMessages tm (addMessage cm "user" u ts1 Option.none) u rt) ts2).2.1 := rfl
  rw [hc1] at h
  obtain ⟨ho, hcm⟩ := chatAfter_error _ _ _ _ _ _ _ _ h
  refine ⟨?_, ?_, ?_, ?_⟩
  · rw [hc1, ho]; rfl
  · rw [hc1, ho]; rfl
  · rw [hc2, hcm]
  · rw [hc2, hcm]
    exact addMessage_appends cm "user" u ts1 Option.none

/-- Claim C3, witness: the boundary theorem applied to a transport failure
on the first model call. -/
theorem chat_error_boundary_witness :
    (chat "gpt" (ToolManager.mk []) (newConversationManager 20) errScript "t1" "t2"
        "hello" true Option.none).1.error = Option.some "boom" ∧
    ((chat "gpt" (ToolManager.mk []) (newConversationManager 20) errScript "t1" "t2"
        "hello" true Option.none).1.response = "I encountered an error: " ++ "boom" ∧
      (chat "gpt" (ToolManager.mk []) (newConversationManager 20) errScript "t1" "t2"
        "hello" true Option.none).1.tool_results = [] ∧
      (chat "gpt" (ToolManager.mk []) (newConversationManager 20) errScript "t1" "t2"
        "hello" true Option.none).2.1 =
        addMessage (newConversationManager 20) "user" "hello" "t1" Option.none ∧
      ∃ pre, (chat "gpt" (ToolManager.mk []) (newConversationManager 20) errScript "t1" "t2"
        "hello" true Option.none).2.1.messages = pre ++ [Message.mk "user" "hello" "t1" []]) :=
  ⟨rfl, chat_error_boundary "gpt" (ToolManager.mk []) (newConversationManager 20) errScript
    "t1" "t2" "hello" true Option.none "boom" rfl⟩

/-- Claim C4 (code evaluated at the failing input): a model response
carrying a tool call whose dispatch fails (here: an unregistered name, so
execute_tool raises the TypeError from the ToolResult construction) does
not get recorded in the tool-results list at all; the exception aborts the
loop, chat returns the failure dict with an empty tool_results list, and
no second model call is issued. -/
theorem chat_tool_failure_aborts :
    (chat "gpt" (ToolManager.mk []) (newConversationManager 20) toolFailScript "t1" "t2"
        "go" true Option.none).1.error = Option.some toolResultMissingData ∧
    (chat "gpt" (ToolManager.mk []) (newConversationManager 20) toolFailScript "t1" "t2"
        "go" true Option.none).1.tool_results = [] ∧
    (chat "gpt" (ToolManager.mk []) (newConversationManager 20) toolFailScript "t1" "t2"
        "go" true Option.none).2.2.length = 1 :=
  ⟨rfl, rfl, rfl⟩

lemma callModel_ok (script : List (Except String ModelMessage)) (n : Nat)
    (am : ModelMessage) (h : callModel script n = Except.ok am) :
    script.get? n = Option.some (Except.ok am) := by
  unfold callModel at h
  rcases hg : script.get? n with _ | r
  · rw [hg] at h
    have h2 : Except.error "connection error" = Except.ok am := h
    exact Except.noConfusion h2
  · rw [hg] at h
    have h2 : r = Except.ok am := h
    rw [h2]

lemma processToolCalls_messages_append (tm : ToolManager) (calls : List ToolCall) :
    ∀ (messages : List APIMessage) (trs : List ToolRecord) (out : List APIMessage),
      processToolCalls tm calls messages = Except.ok (trs, out) →
      ∃ extra, out = messages ++ extra := by
  induction calls with
  | nil =>
    intro messages trs out h
    simp only [processToolCalls, Except.ok.injEq, Prod.mk.injEq] at h
    exact ⟨[], by rw [List.append_nil]; exact h.2.symm⟩
  | cons c rest ih =>
    intro messages trs out h
    rcases ha : c.arguments with e | args
    · simp only [processToolCalls, ha] at h
      exact Except.noConfusion h
    · rcases hx : executeTool tm c.name args with e | r
      · simp only [processToolCalls, ha, hx] at h
        exact Except.noConfusion h
      · rcases hrec : processToolCalls tm rest
            (if r.success then
              messages ++ [APIMessage.mk "tool" (valueStr r.data) (Option.some c.id)]
            else messages) with e2 | pr
        · simp only [processToolCalls, ha, hx, hrec] at h
          exact Except.noConfusion h
        · obtain ⟨recs, msgs2⟩ := pr
          simp only [processToolCalls, ha, hx, hrec, Except.ok.injEq, Prod.mk.injEq] at h
          obtain ⟨h1, h2⟩ := h
          obtain ⟨extra1, hex⟩ := ih _ _ _ hrec
          rcases hsucc : r.success with _ | _
          · simp only [hsucc, Bool.false_eq_true, if_false] at hex
            exact ⟨extra1, by rw [← h2]; exact hex⟩
          · simp only [hsucc, if_true] at hex
            refine ⟨APIMessage.mk "tool" (valueStr r.data) (Option.some c.id) :: extra1, ?_⟩
            rw [← h2, hex, List.append_assoc]
            rfl

lemma chatAfter_ok (model : String) (tm : ToolManager) (cm1 : ConversationManager)
    (rt : Option String) (script : List (Except String ModelMessage))
    (messages2 : List APIMessage) (ts2 : String)
    (h : (chatAfter model tm cm1 rt script messages2 ts2).1.error = Option.none) :
    ((chatAfter model tm cm1 rt script messages2 ts2).1.tool_results = [] ∧
      (chatAfter model tm cm1 rt script messages2 ts2).2.2 = [] ∧
      ∃ m, script.get? 0 = Option.some (Except.ok m) ∧
        (chatAfter model tm cm1 rt script messages2 ts2).1.response = m.content) ∨
    ((chatAfter model tm cm1 rt script messages2 ts2).1.tool_results ≠ [] ∧
      (∃ req2, (chatAfter model tm cm1 rt script messages2 ts2).2.2 = [req2] ∧
        req2.tools = Option.none ∧ req2.tool_choice = Option.none ∧
        (∃ m, script.get? 0 = Option.some (Except.ok m) ∧
          processToolCalls tm m.tool_calls messages2 =
            Except.ok ((chatAfter model tm cm1 rt script messages2 ts2).1.tool_results,
              req2.messages)) ∧
        ∃ extra, req2.messages = messages2 ++ extra) ∧
      ∃ m2, script.get? 1 = Option.some (Except.ok m2) ∧
        (chatAfter model tm cm1 rt script messages2 ts2).1.response = m2.content) := by
  rcases h0 : callModel script 0 with e0 | am
  · simp only [chatAfter, h0, errorOutcome] at h
    exact Option.noConfusion h
  · have hs0 := callModel_ok script 0 am h0
    rcases hb : am.tool_calls.isEmpty with _ | _
    · rcases h1 : processToolCalls tm am.tool_calls messages2 with e1 | pair
      · simp only [chatAfter, h0, hb, Bool.false_eq_true, if_false, h1, errorOutcome] at h
        exact Option.noConfusion h
      · obtain ⟨trs, m3⟩ := pair
        rcases ht : trs.isEmpty with _ | _
        · rcases h3 : callModel script 1 with e3 | am2
          · simp only [chatAfter, h0, hb, h1, ht, Bool.false_eq_true, if_false, h3,
              errorOutcome] at h
            exact Option.noConfusion h
          · right
            have hs1 := callModel_ok script 1 am2 h3
            obtain ⟨extra1, hextra⟩ :=
              processToolCalls_messages_append tm am.tool_calls messages2 trs m3 h1
            simp only [chatAfter, h0, hb, h1, ht, Bool.false_eq_true, if_false, h3,
              chatFinish]
            refine ⟨?_, ⟨Request.mk model m3 Option.none Option.none, by trivial, by trivial,
              by trivial, ⟨am, hs0, ?_⟩, ⟨extra1, ?_⟩⟩, am2, hs1, by trivial⟩
            · intro hcon
              rw [hcon] at ht
              have hcf : true = false := ht
              exact Bool.noConfusion hcf
            · exact h1
            · exact hextra
        · left
          simp only [chatAfter, h0, hb, h1, ht, Bool.false_eq_true, if_false, if_true,
            chatFinish]
          have htrs : trs = [] := List.isEmpty_iff.mp ht
          exact ⟨htrs, by trivial, am, hs0, by trivial⟩
    · left
      simp only [chatAfter, h0, hb, if_true, chatFinish]
      exact ⟨by trivial, by trivial, am, hs0, by trivial⟩

/-- Claim C5: on every chat call that completes without landing in the
except branch, a second model call is issued exactly when the tool-results
list is non-empty (at least one tool was invoked); the second request
carries the updated message list (the first-request messages extended by
the tool loop, which produced exactly the recorded tool results) with no
tools and no tool_choice attached, and its content is the final response,
while with no tool invocation the single first response is final (two
requests issued in the tool case, one otherwise). -/
theorem chat_second_call_iff_tools (model : String) (tm : ToolManager)
    (cm : ConversationManager) (script : List (Except String ModelMessage))
    (ts1 ts2 u : String) (useTools : Bool) (rt : Option String)
    (h : (chat model tm cm script ts1 ts2 u useTools rt).1.error = Option.none) :
    ((chat model tm cm script ts1 ts2 u useTools rt).1.tool_results = [] ∧
      (chat model tm cm script ts1 ts2 u useTools rt).2.2.length = 1 ∧
      ∃ m, script.get? 0 = Option.some (Except.ok m) ∧
        (chat model tm cm script ts1 ts2 u useTools rt).1.response = m.content) ∨
    ((chat model tm cm script ts1 ts2 u useTools rt).1.tool_results ≠ [] ∧
      (chat model tm cm script ts1 ts2 u useTools rt).2.2.length = 2 ∧
      (∃ r2, (chat model tm cm script ts1 ts2 u useTools rt).2.2.get? 1 =
          Option.some r2 ∧ r2.tools = Option.none ∧ r2.tool_choice = Option.none ∧
        (∃ m, script.get? 0 = Option.some (Except.ok m) ∧
          processToolCalls tm m.tool_calls
              (buildMessages tm (addMessage cm "user" u ts1 Option.none) u rt) =
            Except.ok ((chat model tm cm script ts1 ts2 u useTools rt).1.tool_results,
              r2.messages)) ∧
        ∃ extra, r2.messages =
          buildMessages tm (addMessage cm "user" u ts1 Option.none) u rt ++ extra) ∧
      ∃ m2, script.get? 1 = Option.some (Except.ok m2) ∧
        (chat model tm cm script ts1 ts2 u useTools rt).1.response = m2.content) := by
  have hc1 : (chat model tm cm script ts1 ts2 u useTools rt).1 =
      (chatAfter model tm (addMessage cm "user" u ts1 Option.none) rt script
        (buildMessages tm (addMessage cm "user" u ts1 Option.none) u rt) ts2).1 := rfl
  have hc3 : (chat model tm cm script ts1 ts2 u useTools rt).2.2 =
      Request.mk model (buildMessages tm (addMessage cm "user" u ts1 Option.none) u rt)
        (if useTools then Option.some (getToolDefinitions tm) else Option.none)
        (if useTools then Option.some "auto" else Option.none) ::
      (chatAfter model tm (addMessage cm "user" u ts1 Option.none) rt script
        (buildMessages tm (addMessage cm "user" u ts1 Option.none) u rt) ts2).2.2 := rfl
  rw [hc1] at h
  rcases chatAfter_ok _ _ _ _ _ _ _ h with ⟨htr, hex, m, hm, hresp⟩ |
    ⟨htr, ⟨req2, hex, htools, hchoice, ⟨m, hm, hptc⟩, ⟨extra, hextra⟩⟩, m2, hm2, hresp⟩
  · left
    refine ⟨by rw [hc1]; exact htr, ?_, m, hm, by rw [hc1]; exact hresp⟩
    rw [hc3, hex]
    rfl
  · right
    refine ⟨by rw [hc1]; exact htr, ?_, ⟨req2, ?_, htools, hchoice,
      ⟨m, hm, by rw [hc1]; exact hptc⟩, ⟨extra, hextra⟩⟩, m2, hm2,
      by rw [hc1]; exact hresp⟩
    · rw [hc3, hex]
      rfl
    · rw [hc3, hex]
      rfl

/-- Claim C5, witness: the theorem applied to a script whose first
response calls the succeeding echo_tool and whose second response closes
the conversation, exercising the second-call branch. -/
theorem chat_second_call_iff_tools_witness :
    ((chat "gpt" okToolRegistry (newConversationManager 20) toolOkScript "t1" "t2"
        "hi" true Option.none).1.tool_results = [] ∧
      (chat "gpt" okToolRegistry (newConversationManager 20) toolOkScript "t1" "t2"
        "hi" true Option.none).2.2.length = 1 ∧
      ∃ m, toolOkScript.get? 0 = Option.some (Except.ok m) ∧
        (chat "gpt" okToolRegistry (newConversationManager 20) toolOkScript "t1" "t2"
          "hi" true Option.none).1.response = m.content) ∨
    ((chat "gpt" okToolRegistry (newConversationManager 20) toolOkScript "t1" "t2"
        "hi" true Option.none).1.tool_results ≠ [] ∧
      (chat "gpt" okToolRegistry (newConversationManager 20) toolOkScript "t1" "t2"
        "hi" true Option.none).2.2.length = 2 ∧
      (∃ r2, (chat "gpt" okToolRegistry (newConversationManager 20) toolOkScript "t1" "t2"
          "hi" true Option.none).2.2.get? 1 = Option.some r2 ∧
        r2.tools = Option.none ∧ r2.tool_choice = Option.none ∧
        (∃ m, toolOkScript.get? 0 = Option.some (Except.ok m) ∧
          processToolCalls okToolRegistry m.tool_calls
              (buildMessages okToolRegistry
                (addMessage (newConversationManager 20) "user" "hi" "t1" Option.none)
                "hi" Option.none) =
            Except.ok ((chat "gpt" okToolRegistry (newConversationManager 20) toolOkScript
                "t1" "t2" "hi" true Option.none).1.tool_results, r2.messages)) ∧
        ∃ extra, r2.messages =
          buildMessages okToolRegistry
            (addMessage (newConversationManager 20) "user" "hi" "t1" Option.none)
            "hi" Option.none ++ extra) ∧
      ∃ m2, toolOkScript.get? 1 = Option.some (Except.ok m2) ∧
        (chat "gpt" okToolRegistry (newConversationManager 20) toolOkScript "t1" "t2"
          "hi" true Option.none).1.response = m2.content) :=
  chat_second_call_iff_tools "gpt" okToolRegistry (newConversationManager 20)
    toolOkScript "t1" "t2" "hi" true Option.none rfl

/-- Claim C6: the first outbound request always consists of the system
prefix plus, when a reasoning mode is selected, the reasoning-built prompt
as the sole user turn (the prompt embeds the literal user message, and the
stored history is absent from the request); without a reasoning mode the
request instead appends the full stored history via get_messages_for_api. -/
theorem chat_reasoning_mode_request (model : String) (tm : ToolManager)
    (cm : ConversationManager) (script : List (Except String ModelMessage))
    (ts1 ts2 u : String) (useTools : Bool) :
    (∀ rt, (chat model tm cm script ts1 ts2 u useTools rt).2.2.head? =
      Option.some (Request.mk model
        (buildMessages tm (addMessage cm "user" u ts1 Option.none) u rt)
        (if useTools then Option.some (getToolDefinitions tm) else Option.none)
        (if useTools then Option.some "auto" else Option.none))) ∧
    buildMessages tm (addMessage cm "user" u ts1 Option.none) u
        (Option.some "chain_of_thought") =
      baseRequestMessages (addMessage cm "user" u ts1 Option.none) ++
        [APIMessage.mk "user" (chainOfThoughtPrompt u
          (getContextSummary (addMessage cm "user" u ts1 Option.none))) Option.none] ∧
    buildMessages tm (addMessage cm "user" u ts1 Option.none) u (Option.some "react") =
      baseRequestMessages (addMessage cm "user" u ts1 Option.none) ++
        [APIMessage.mk "user" (reactPrompt u (tm.tools.map Prod.fst)) Option.none] ∧
    buildMessages tm (addMessage cm "user" u ts1 Option.none) u Option.none =
      baseRequestMessages (addMessage cm "user" u ts1 Option.none) ++
        getMessagesForApi (addMessage cm "user" u ts1 Option.none) ∧
    (∀ msg ∈ baseRequestMessages (addMessage cm "user" u ts1 Option.none),
      msg.role = "system") ∧
    (∃ p q, chainOfThoughtPrompt u
        (getContextSummary (addMessage cm "user" u ts1 Option.none)) = p ++ u ++ q) ∧
    (∃ p q, reactPrompt u (tm.tools.map Prod.fst) = p ++ u ++ q) := by
  refine ⟨fun rt => rfl, ?_, ?_, ?_, ?_, ?_, ?_⟩
  · rw [buildMessages, if_pos rfl]
  · rw [buildMessages, if_neg (by decide), if_pos rfl]
  · rw [buildMessages, if_neg (by decide), if_neg (by decide)]
  · intro msg hmem
    unfold baseRequestMessages at hmem
    split at hmem
    · simp only [List.mem_cons, List.mem_singleton, List.not_mem_nil, or_false] at hmem
      rcases hmem with hm | hm <;> rw [hm]
    · simp only [List.mem_singleton] at hmem
      rw [hmem]
  · exact ⟨chainOfThoughtHead, chainOfThoughtTail _, rfl⟩
  · exact ⟨reactHead, reactTail _, rfl⟩

end SynthesisTalk
